import Mathlib

/-!
Verification of the root-Nyquist Kaiser filter design unit
(src/filter/src/rkaiser.c) against its natural-language specification.

The unit is shallowly embedded over the rationals.  The external
collaborators that the unit calls but does not implement -- the libm
functions logf, expf, sqrtf and the two liquid routines
fir_kaiser_window (windowed-sinc tap generator) and liquid_filter_isi
(ISI measurement), declared in liquid.internal.h but implemented outside
this source file -- are bundled in a record of abstract functions, so
every definition below is parametric in them and computable.
Process-terminating validation (the C code calls exit on bad input) is
modelled by an explicit outcome type that distinguishes a normal return
from a process exit with a given code.
-/

/-- Result of running a C function that may terminate the whole process:
either a normal return value, or a process exit with the given code. -/
inductive Outcome (α : Type) where
  | ok : α → Outcome α
  | exit : Nat → Outcome α
deriving DecidableEq, Repr

/-- Map over the normal-return case, propagating a process exit. -/
def Outcome.map {α β : Type} (f : α → β) : Outcome α → Outcome β
  | .ok a => .ok (f a)
  | .exit c => .exit c

/-- External collaborators of the unit: the libm math functions and the
two liquid routines used but not implemented by rkaiser.c.  They are
abstract parameters of the model. -/
structure Deps where
  logf : ℚ → ℚ
  expf : ℚ → ℚ
  sqrtf : ℚ → ℚ
  fir_kaiser_window : ℕ → ℚ → ℚ → ℚ → List ℚ
  liquid_filter_isi : List ℚ → ℕ → ℕ → ℚ × ℚ

/-- The per-delay curve-fit coefficients (c0, c1, c2) of
rkaiser_approximate_rho: tabulated for m in 1..6, and computed from the
continuous empirical formulas otherwise (the switch default). -/
def rkaiser_c012 (E : Deps) (m : ℕ) : ℚ × ℚ × ℚ :=
  match m with
  | 1 => (0.78583556, 0.05439958, 0.37818679)
  | 2 => (0.82194722, 0.06170731, 0.16362774)
  | 3 => (0.84686762, 0.07475776, 0.05263769)
  | 4 => (0.86538726, 0.07374587, 0.03491642)
  | 5 => (0.87861007, 0.06981039, 0.03553645)
  | 6 => (0.88901162, 0.06708569, 0.03459680)
  | _ =>
    (0.057918 * E.logf (m : ℚ) + 0.784313,
     if m ≤ 3 then 0.0099427 * (m : ℚ) + 0.0447250
       else -0.0026685 * (m : ℚ) + 0.0835030,
     0.03373 + E.expf (-0.30382 * (m : ℚ) * (m : ℚ) - 0.19451 * (m : ℚ) - 0.56171))

/-- The coefficient c2 after the guard protecting the logarithm,
`if (c2 >= _beta) c2 = 0.999f*_beta`. -/
def rkaiserC2clamped (E : Deps) (m : ℕ) (beta : ℚ) : ℚ :=
  if (rkaiser_c012 E m).2.2 ≥ beta then 0.999 * beta else (rkaiser_c012 E m).2.2

/-- The argument `_beta - c2` handed to logf in rkaiser_approximate_rho. -/
def rhoLogArg (E : Deps) (m : ℕ) (beta : ℚ) : ℚ :=
  beta - rkaiserC2clamped E m beta

/-- The unclamped estimate `rho_hat = c0 + c1*logf(_beta - c2)`. -/
def rhoHatRaw (E : Deps) (m : ℕ) (beta : ℚ) : ℚ :=
  (rkaiser_c012 E m).1 + (rkaiser_c012 E m).2.1 * E.logf (rhoLogArg E m beta)

/-- The final clamp of rkaiser_approximate_rho:
`if (rho_hat < 0) rho_hat = 0; else if (rho_hat > 1) rho_hat = 1`. -/
def clamp01 (x : ℚ) : ℚ :=
  if x < 0 then 0 else if x > 1 then 1 else x

/-- rkaiser_approximate_rho: validate m and beta (the C code prints to
stderr and exits the process with code 0 on failure), then return the
clamped empirical estimate of the bandwidth adjustment factor. -/
def rkaiser_approximate_rho (E : Deps) (m : ℕ) (beta : ℚ) : Outcome ℚ :=
  if m < 1 then .exit 0
  else if beta < 0 ∨ beta > 1 then .exit 0
  else .ok (clamp01 (rhoHatRaw E m beta))

/-- The candidate filter computed for a given bandwidth adjustment rho:
the body of design_rkaiser_filter_internal_isi up to the call of the
external tap generator.  n = 2km+1, gamma = rho*beta, del = gamma/k,
As = 14.26*del*n + 7.95, fc = (1+beta-gamma)/k, then
fir_kaiser_window(n, fc, As, dt).  design_arkaiser_filter computes taps
by the same formulas with rho = rho_hat. -/
def rkaiserCandidateTaps (E : Deps) (k m : ℕ) (beta dt rho : ℚ) : List ℚ :=
  E.fir_kaiser_window (2 * k * m + 1)
    ((1 + beta - rho * beta) / (k : ℚ))
    (14.26 * (rho * beta / (k : ℚ)) * ((2 * k * m + 1 : ℕ) : ℚ) + 7.95)
    dt

/-- design_rkaiser_filter_internal_isi: generate the candidate filter at
rho and measure it, returning the mse component of the ISI metric. -/
def design_rkaiser_filter_internal_isi (E : Deps) (k m : ℕ) (beta dt rho : ℚ) : ℚ :=
  (E.liquid_filter_isi (rkaiserCandidateTaps E k m beta dt rho) k m).1

/-- State of the parabolic search: bracket points (x0,y0), (x2,y2) and
the current vertex estimate x_hat (the midpoint (x1,y1) is recomputed at
every iteration). -/
structure SearchState where
  x0 : ℚ
  y0 : ℚ
  x2 : ℚ
  y2 : ℚ
  x_hat : ℚ
deriving DecidableEq, Repr

/-- The midpoint chosen at each iteration: `x1 = 0.5f*(x0 + x2)`. -/
def searchX1 (s : SearchState) : ℚ := 0.5 * (s.x0 + s.x2)

/-- The objective value at the midpoint: `y1 = isi(k,m,beta,dt,x1)`. -/
def searchY1 (E : Deps) (k m : ℕ) (beta dt : ℚ) (s : SearchState) : ℚ :=
  design_rkaiser_filter_internal_isi E k m beta dt (searchX1 s)

/-- The parabola-fit numerator t0 of the search iteration. -/
def searchNum (E : Deps) (k m : ℕ) (beta dt : ℚ) (s : SearchState) : ℚ :=
  s.y0 * (searchX1 s * searchX1 s - s.x2 * s.x2) +
  searchY1 E k m beta dt s * (s.x2 * s.x2 - s.x0 * s.x0) +
  s.y2 * (s.x0 * s.x0 - searchX1 s * searchX1 s)

/-- The parabola-fit denominator t1 of the search iteration. -/
def searchDenom (E : Deps) (k m : ℕ) (beta dt : ℚ) (s : SearchState) : ℚ :=
  s.y0 * (searchX1 s - s.x2) +
  searchY1 E k m beta dt s * (s.x2 - s.x0) +
  s.y2 * (s.x0 - searchX1 s)

/-- One iteration of the parabolic search loop body.  Returns the updated
state and a flag that is true exactly when the loop breaks early because
the magnitude of the denominator is below 1e-9 (in which case the state
is left unchanged; in particular x_hat keeps its previous value). -/
def searchStep (E : Deps) (k m : ℕ) (beta dt : ℚ) (s : SearchState) : SearchState × Bool :=
  if |searchDenom E k m beta dt s| < 1e-9 then (s, true)
  else if 0.5 * searchNum E k m beta dt s / searchDenom E k m beta dt s > searchX1 s then
    (⟨searchX1 s, searchY1 E k m beta dt s, s.x2, s.y2,
      0.5 * searchNum E k m beta dt s / searchDenom E k m beta dt s⟩, false)
  else
    (⟨s.x0, s.y0, searchX1 s, searchY1 E k m beta dt s,
      0.5 * searchNum E k m beta dt s / searchDenom E k m beta dt s⟩, false)

/-- The search loop `for (p=0; p<pmax; p++)` with the given fuel,
returning the final state together with the number of loop-body entries
executed.  (The debug-only re-evaluation and printf at the end of the C
loop body have no effect on any computed value and are omitted.) -/
def searchRun (E : Deps) (k m : ℕ) (beta dt : ℚ) : SearchState → ℕ → SearchState × ℕ
  | s, 0 => (s, 0)
  | s, fuel + 1 =>
    if (searchStep E k m beta dt s).2 then ((searchStep E k m beta dt s).1, 1)
    else
      ((searchRun E k m beta dt (searchStep E k m beta dt s).1 fuel).1,
       (searchRun E k m beta dt (searchStep E k m beta dt s).1 fuel).2 + 1)

/-- The initial search state of design_rkaiser_filter_internal:
x0 = rho_hat*0.9, x2 = rho_hat*1.1, y0 and y2 their objective values,
and x_hat initialized to rho_hat. -/
def rkaiserInitState (E : Deps) (k m : ℕ) (beta dt rho_hat : ℚ) : SearchState :=
  ⟨rho_hat * 0.9,
   design_rkaiser_filter_internal_isi E k m beta dt (rho_hat * 0.9),
   rho_hat * 1.1,
   design_rkaiser_filter_internal_isi E k m beta dt (rho_hat * 1.1),
   rho_hat⟩

/-- The bandwidth adjustment at which design_rkaiser_filter_internal
regenerates the final filter: the x_hat left by the bounded (pmax = 10)
parabolic search started from the estimate rho_hat. -/
def rkaiserSearchRho (E : Deps) (k m : ℕ) (beta dt rho_hat : ℚ) : ℚ :=
  (searchRun E k m beta dt (rkaiserInitState E k m beta dt rho_hat) 10).1.x_hat

/-- Sum of squared taps, the energy e2 accumulated by the normalization
loops of both design paths. -/
def sumSq (h : List ℚ) : ℚ := (h.map fun x => x * x).sum

/-- The normalization `h[i] *= sqrtf(_k/e2)` applied to every tap. -/
def normalizeEnergy (E : Deps) (k : ℕ) (h : List ℚ) : List ℚ :=
  h.map fun x => x * E.sqrtf ((k : ℚ) / sumSq h)

/-- The pre-normalization taps of the exact (internal) design path:
the candidate filter regenerated at the rho left by the search. -/
def rkaiserFinalRawTaps (E : Deps) (k m : ℕ) (beta dt : ℚ) : List ℚ :=
  rkaiserCandidateTaps E k m beta dt
    (rkaiserSearchRho E k m beta dt (clamp01 (rhoHatRaw E m beta)))

/-- The pre-normalization taps of the approximate design path:
the candidate filter generated once at rho_hat. -/
def arkRawTaps (E : Deps) (k m : ℕ) (beta dt : ℚ) : List ℚ :=
  rkaiserCandidateTaps E k m beta dt (clamp01 (rhoHatRaw E m beta))

/-- design_rkaiser_filter_internal: validate k, m, beta (process exit
with code 1 on failure; note there is no dt check and the beta check is
against the closed interval [0,1]), estimate rho_hat, run the parabolic
search, regenerate the filter at the resulting x_hat, normalize its
energy, and return the taps together with the saved value `*_rho =
rho_hat`. -/
def design_rkaiser_filter_internal (E : Deps) (k m : ℕ) (beta dt : ℚ) :
    Outcome (List ℚ × ℚ) :=
  if k < 1 then .exit 1
  else if m < 1 then .exit 1
  else if beta < 0 ∨ beta > 1 then .exit 1
  else
    (rkaiser_approximate_rho E m beta).map fun rho_hat =>
      (normalizeEnergy E k
        (rkaiserCandidateTaps E k m beta dt (rkaiserSearchRho E k m beta dt rho_hat)),
       rho_hat)

/-- The rho at which the final filter of the exact design is
regenerated, for a given input (the value of x_hat after the search). -/
def rkaiserFinalRho (E : Deps) (k m : ℕ) (beta dt : ℚ) : Outcome ℚ :=
  (rkaiser_approximate_rho E m beta).map fun rho_hat =>
    rkaiserSearchRho E k m beta dt rho_hat

/-- design_rkaiser_filter: the public exact design entry point.  It
validates k >= 2, m >= 1, beta in the open interval (0,1) and dt in
[-1,1] (process exit with code 1 on failure), then calls the internal
method and ignores the output rho value. -/
def design_rkaiser_filter (E : Deps) (k m : ℕ) (beta dt : ℚ) : Outcome (List ℚ) :=
  if k < 2 then .exit 1
  else if m < 1 then .exit 1
  else if beta ≤ 0 ∨ beta ≥ 1 then .exit 1
  else if dt < -1 ∨ dt > 1 then .exit 1
  else (design_rkaiser_filter_internal E k m beta dt).map Prod.fst

/-- design_arkaiser_filter: the public approximate design entry point.
Same validation as the public exact design; then a single candidate
filter generated at rho_hat and energy-normalized. -/
def design_arkaiser_filter (E : Deps) (k m : ℕ) (beta dt : ℚ) : Outcome (List ℚ) :=
  if k < 2 then .exit 1
  else if m < 1 then .exit 1
  else if beta ≤ 0 ∨ beta ≥ 1 then .exit 1
  else if dt < -1 ∨ dt > 1 then .exit 1
  else
    (rkaiser_approximate_rho E m beta).map fun rho_hat =>
      normalizeEnergy E k (rkaiserCandidateTaps E k m beta dt rho_hat)

/-- The inverse-parabolic vertex formula exactly as the specification
states it. -/
def specVertex (x0 y0 x1 y1 x2 y2 : ℚ) : ℚ :=
  0.5 * (y0 * (x1 ^ 2 - x2 ^ 2) + y1 * (x2 ^ 2 - x0 ^ 2) + y2 * (x0 ^ 2 - x1 ^ 2)) /
    (y0 * (x1 - x2) + y1 * (x2 - x0) + y2 * (x0 - x1))

/-- Trivial instantiation of the external collaborators: every function
returns zero (the tap generator returns an empty list). -/
def extZero : Deps :=
  ⟨fun _ => 0, fun _ => 0, fun _ => 0, fun _ _ _ _ => [], fun _ _ _ => (0, 0)⟩

/-- Collaborators driving the search to a vertex outside [0,1]: logf is
the constant 1000 (so rho_hat clamps to exactly 1), the tap generator
returns the two-tap filter [fc, 1], and the ISI measure is
0.0001*(first tap)^2.  As a function of rho (at k = 2, beta = 1/2) the
objective is the exact parabola 0.0001*((1.5 - 0.5*rho)/2)^2, whose
vertex -- and hence the x_hat computed by every non-degenerate
iteration -- is rho = 3. -/
def extCx : Deps :=
  ⟨fun _ => 1000, fun _ => 0, fun _ => 1,
   fun _ fc _ _ => [fc, 1],
   fun h _ _ => (0.0001 * (h.getD 0 0) * (h.getD 0 0), 0)⟩

/-- Collaborators for which the exact design ends with a larger measured
ISI than the approximate design: the objective (as a function of rho at
k = 2, beta = 1/2, where the first tap is fc = (1.5 - 0.5*rho)/2, i.e.
rho = 3 - 4*fc) is the concave parabola 1 - 0.0001*(rho - 0.8)^2, whose
vertex rho = 0.8 is its maximum; the vertex formula still returns 0.8,
so the search walks to the worst point of the bracket region. -/
def extCx9 : Deps :=
  ⟨fun _ => 1000, fun _ => 0, fun _ => 1,
   fun _ fc _ _ => [fc, 1],
   fun h _ _ => (1 - 0.0001 * ((3 - 4 * h.getD 0 0) - 0.8) * ((3 - 4 * h.getD 0 0) - 0.8), 0)⟩

/-- Collaborators under which the energy-normalization hypotheses hold
concretely: the tap generator emits [1, 1, 0, ..., 0] of the requested
length (energy 2), sqrtf is the constant 1 (exact at the normalization
point k/e2 = 2/2 = 1), and the ISI measure is identically zero (so the
search breaks in its first iteration). -/
def extW : Deps :=
  ⟨fun _ => 0, fun _ => 0, fun _ => 1,
   fun n _ _ _ => 1 :: 1 :: List.replicate (n - 2) 0,
   fun _ _ _ => (0, 0)⟩

/-! ### Shared helper lemmas -/

theorem approx_rho_ok (E : Deps) (m : ℕ) (beta : ℚ)
    (hm : 1 ≤ m) (hb0 : 0 ≤ beta) (hb1 : beta ≤ 1) :
    rkaiser_approximate_rho E m beta = Outcome.ok (clamp01 (rhoHatRaw E m beta)) := by
  unfold rkaiser_approximate_rho
  rw [if_neg (by omega), if_neg (by push_neg; exact ⟨hb0, hb1⟩)]

theorem clamp01_nonneg (x : ℚ) : 0 ≤ clamp01 x := by
  unfold clamp01; split_ifs <;> linarith

theorem clamp01_le_one (x : ℚ) : clamp01 x ≤ 1 := by
  unfold clamp01; split_ifs <;> linarith

theorem sumSq_scale (s : ℚ) : ∀ h : List ℚ,
    sumSq (h.map fun x => x * s) = s ^ 2 * sumSq h := by
  intro h
  induction h with
  | nil => simp [sumSq]
  | cons a t ih =>
    simp only [sumSq, List.map_cons, List.sum_cons] at ih ⊢
    rw [ih]; ring

theorem sumSq_normalizeEnergy (E : Deps) (k : ℕ) (h : List ℚ) :
    sumSq (normalizeEnergy E k h) = E.sqrtf ((k : ℚ) / sumSq h) ^ 2 * sumSq h := by
  unfold normalizeEnergy
  exact sumSq_scale _ h

theorem searchRun_break (E : Deps) (k m : ℕ) (beta dt : ℚ) (s s' : SearchState) (fuel : ℕ)
    (h : searchStep E k m beta dt s = (s', true)) :
    searchRun E k m beta dt s (fuel + 1) = (s', 1) := by
  rw [searchRun, h]
  simp

theorem searchRun_go (E : Deps) (k m : ℕ) (beta dt : ℚ) (s s' : SearchState) (fuel : ℕ)
    (h : searchStep E k m beta dt s = (s', false)) :
    searchRun E k m beta dt s (fuel + 1) =
      ((searchRun E k m beta dt s' fuel).1, (searchRun E k m beta dt s' fuel).2 + 1) := by
  rw [searchRun, h]
  simp

theorem searchStep_of_small_denom (E : Deps) (k m : ℕ) (beta dt : ℚ) (s : SearchState)
    (h : |searchDenom E k m beta dt s| < 1e-9) :
    searchStep E k m beta dt s = (s, true) := by
  unfold searchStep
  rw [if_pos h]

theorem searchStep_break_state (E : Deps) (k m : ℕ) (beta dt : ℚ) (s s' : SearchState)
    (h : searchStep E k m beta dt s = (s', true)) :
    s' = s ∧ |searchDenom E k m beta dt s| < 1e-9 := by
  unfold searchStep at h
  split_ifs at h with hd
  · simp only [Prod.mk.injEq] at h
    exact ⟨h.1.symm, hd⟩
  · simp only [Prod.mk.injEq] at h
    exact absurd h.2 (by simp)
  · simp only [Prod.mk.injEq] at h
    exact absurd h.2 (by simp)

theorem searchRun_count (E : Deps) (k m : ℕ) (beta dt : ℚ) :
    ∀ (fuel : ℕ) (s : SearchState),
      (searchRun E k m beta dt s fuel).2 ≤ fuel ∧
      ((searchRun E k m beta dt s fuel).2 < fuel →
        |searchDenom E k m beta dt (searchRun E k m beta dt s fuel).1| < 1e-9) := by
  intro fuel
  induction fuel with
  | zero => intro s; simp [searchRun]
  | succ n ih =>
    intro s
    rcases hstep : searchStep E k m beta dt s with ⟨s', b⟩
    cases b with
    | true =>
      rw [searchRun_break E k m beta dt s s' n hstep]
      obtain ⟨hs, hd⟩ := searchStep_break_state E k m beta dt s s' hstep
      subst hs
      exact ⟨by omega, fun _ => hd⟩
    | false =>
      rw [searchRun_go E k m beta dt s s' n hstep]
      obtain ⟨ih1, ih2⟩ := ih s'
      exact ⟨by omega, fun hlt => ih2 (by omega)⟩

theorem extZero_search_breaks (k m : ℕ) (beta dt rho_hat : ℚ) :
    searchRun extZero k m beta dt (rkaiserInitState extZero k m beta dt rho_hat) 10 =
      (rkaiserInitState extZero k m beta dt rho_hat, 1) := by
  apply searchRun_break
  apply searchStep_of_small_denom
  have h : searchDenom extZero k m beta dt (rkaiserInitState extZero k m beta dt rho_hat) = 0 := by
    simp [searchDenom, searchY1, rkaiserInitState, design_rkaiser_filter_internal_isi, extZero]
  rw [h]
  norm_num

/-! ### C5 -/

/-- C5: the parabolic search loop runs at most 10 iterations, and the
only way it stops before exhausting that budget is the early break taken
when the magnitude of the parabola-fit denominator t1 is below 1e-9;
there is no tolerance-based stopping rule on the bracket width or the
objective. -/
theorem parabolic_search_iteration_budget (E : Deps) (k m : ℕ) (beta dt rho_hat : ℚ) :
    (searchRun E k m beta dt (rkaiserInitState E k m beta dt rho_hat) 10).2 ≤ 10 ∧
    ((searchRun E k m beta dt (rkaiserInitState E k m beta dt rho_hat) 10).2 < 10 →
      |searchDenom E k m beta dt
        (searchRun E k m beta dt (rkaiserInitState E k m beta dt rho_hat) 10).1| < 1e-9) :=
  searchRun_count E k m beta dt 10 (rkaiserInitState E k m beta dt rho_hat)

/-- C5 witness: at a concrete input whose first parabola fit is
degenerate, the loop stops after one iteration and the denominator at
the stopping state is below the break threshold. -/
theorem parabolic_search_iteration_budget_witness :
    (searchRun extZero 1 1 0 0 (rkaiserInitState extZero 1 1 0 0 0) 10).2 ≤ 10 ∧
    |searchDenom extZero 1 1 0 0
      (searchRun extZero 1 1 0 0 (rkaiserInitState extZero 1 1 0 0 0) 10).1| < 1e-9 :=
  ⟨(parabolic_search_iteration_budget extZero 1 1 0 0 0).1,
   (parabolic_search_iteration_budget extZero 1 1 0 0 0).2
     (by rw [extZero_search_breaks]; norm_num)⟩

/-! ### C2 -/

/-- C2 counterexample: the public exact design, called with the invalid
oversampling k = 1, does not hand a structured error back to the caller:
it terminates the hosting process with exit code 1. -/
theorem invalid_k_terminates_process :
    design_rkaiser_filter extZero 1 3 (3/10) 0 = Outcome.exit 1 := by
  simp [design_rkaiser_filter]

/-- C2 amended: for every invalid input, each entry point prints an
error and terminates the hosting process via exit -- code 1 for the
design entry points and code 0 for the standalone approximator -- rather
than returning a structured result. -/
theorem validation_failures_exit_process (E : Deps) (k m : ℕ) (beta dt : ℚ) :
    (k < 2 ∨ m < 1 ∨ beta ≤ 0 ∨ 1 ≤ beta ∨ dt < -1 ∨ 1 < dt →
      design_rkaiser_filter E k m beta dt = Outcome.exit 1) ∧
    (k < 2 ∨ m < 1 ∨ beta ≤ 0 ∨ 1 ≤ beta ∨ dt < -1 ∨ 1 < dt →
      design_arkaiser_filter E k m beta dt = Outcome.exit 1) ∧
    (k < 1 ∨ m < 1 ∨ beta < 0 ∨ 1 < beta →
      design_rkaiser_filter_internal E k m beta dt = Outcome.exit 1) ∧
    (m < 1 ∨ beta < 0 ∨ 1 < beta →
      rkaiser_approximate_rho E m beta = Outcome.exit 0) := by
  refine ⟨fun h => ?_, fun h => ?_, fun h => ?_, fun h => ?_⟩
  · unfold design_rkaiser_filter
    split_ifs with h1 h2 h3 h4
    any_goals rfl
    exfalso
    rcases h with h | h | h | h | h | h
    · omega
    · omega
    · exact h3 (Or.inl h)
    · exact h3 (Or.inr h)
    · exact h4 (Or.inl h)
    · exact h4 (Or.inr h)
  · unfold design_arkaiser_filter
    split_ifs with h1 h2 h3 h4
    any_goals rfl
    exfalso
    rcases h with h | h | h | h | h | h
    · omega
    · omega
    · exact h3 (Or.inl h)
    · exact h3 (Or.inr h)
    · exact h4 (Or.inl h)
    · exact h4 (Or.inr h)
  · unfold design_rkaiser_filter_internal
    split_ifs with h1 h2 h3
    any_goals rfl
    exfalso
    rcases h with h | h | h | h
    · omega
    · omega
    · exact h3 (Or.inl h)
    · exact h3 (Or.inr h)
  · unfold rkaiser_approximate_rho
    split_ifs with h1 h2
    any_goals rfl
    exfalso
    rcases h with h | h | h
    · omega
    · exact h2 (Or.inl h)
    · exact h2 (Or.inr h)

/-- C2 witness: each entry point, applied to a concrete invalid input,
exits the process with its respective code. -/
theorem validation_failures_exit_process_witness :
    design_rkaiser_filter extZero 0 1 (1/2) 0 = Outcome.exit 1 ∧
    design_arkaiser_filter extZero 0 1 (1/2) 0 = Outcome.exit 1 ∧
    design_rkaiser_filter_internal extZero 0 1 (1/2) 0 = Outcome.exit 1 ∧
    rkaiser_approximate_rho extZero 0 (1/2) = Outcome.exit 0 :=
  ⟨(validation_failures_exit_process extZero 0 1 (1/2) 0).1 (Or.inl (by norm_num)),
   (validation_failures_exit_process extZero 0 1 (1/2) 0).2.1 (Or.inl (by norm_num)),
   (validation_failures_exit_process extZero 0 1 (1/2) 0).2.2.1 (Or.inl (by norm_num)),
   (validation_failures_exit_process extZero 0 0 (1/2) 0).2.2.2 (Or.inl (by norm_num))⟩

/-! ### C7 -/

/-- C7 counterexample: beta = 0 lies in the closed interval [0,1]
accepted by the approximator, yet after the clamp of c2 the logarithm
argument beta - c2 is exactly 0, not strictly positive. -/
theorem log_argument_not_positive_at_beta_zero :
    rkaiser_approximate_rho extZero 1 0 = Outcome.ok 0.78583556 ∧
    rhoLogArg extZero 1 0 = 0 ∧ ¬ (0 < rhoLogArg extZero 1 0) := by
  refine ⟨?_, ?_, ?_⟩ <;>
    norm_num [rkaiser_approximate_rho, clamp01, rhoHatRaw, rhoLogArg,
      rkaiserC2clamped, rkaiser_c012, extZero]

/-- C7 amended: for every m >= 1 and beta in the half-open interval
(0,1], the clamp of c2 to 0.999*beta keeps the logarithm argument
beta - c2 strictly positive, and the returned estimate, after clamping,
lies in [0,1]. -/
theorem log_argument_positive_and_estimate_in_unit (E : Deps) (m : ℕ) (beta : ℚ)
    (hm : 1 ≤ m) (hb0 : 0 < beta) (hb1 : beta ≤ 1) :
    0 < rhoLogArg E m beta ∧
    rkaiser_approximate_rho E m beta = Outcome.ok (clamp01 (rhoHatRaw E m beta)) ∧
    0 ≤ clamp01 (rhoHatRaw E m beta) ∧ clamp01 (rhoHatRaw E m beta) ≤ 1 := by
  refine ⟨?_, approx_rho_ok E m beta hm (le_of_lt hb0) hb1, clamp01_nonneg _, clamp01_le_one _⟩
  unfold rhoLogArg rkaiserC2clamped
  split_ifs with h
  · linarith
  · push_neg at h
    linarith

/-- C7 witness: the amended claim instantiated at m = 1, beta = 1/2. -/
theorem log_argument_positive_and_estimate_in_unit_witness :
    0 < rhoLogArg extZero 1 (1/2) ∧
    rkaiser_approximate_rho extZero 1 (1/2) =
      Outcome.ok (clamp01 (rhoHatRaw extZero 1 (1/2))) ∧
    0 ≤ clamp01 (rhoHatRaw extZero 1 (1/2)) ∧ clamp01 (rhoHatRaw extZero 1 (1/2)) ≤ 1 :=
  log_argument_positive_and_estimate_in_unit extZero 1 (1/2)
    (by norm_num) (by norm_num) (by norm_num)

theorem internal_ok (E : Deps) (k m : ℕ) (beta dt : ℚ)
    (hk : 1 ≤ k) (hm : 1 ≤ m) (hb0 : 0 ≤ beta) (hb1 : beta ≤ 1) :
    design_rkaiser_filter_internal E k m beta dt =
      Outcome.ok
        (normalizeEnergy E k
          (rkaiserCandidateTaps E k m beta dt
            (rkaiserSearchRho E k m beta dt (clamp01 (rhoHatRaw E m beta)))),
         clamp01 (rhoHatRaw E m beta)) := by
  unfold design_rkaiser_filter_internal
  rw [if_neg (by omega), if_neg (by omega), if_neg (by push_neg; exact ⟨hb0, hb1⟩),
    approx_rho_ok E m beta hm hb0 hb1]
  rfl

theorem internal_invalid_exit (E : Deps) (k m : ℕ) (beta dt : ℚ)
    (h : k < 1 ∨ m < 1 ∨ beta < 0 ∨ 1 < beta) :
    design_rkaiser_filter_internal E k m beta dt = Outcome.exit 1 := by
  unfold design_rkaiser_filter_internal
  split_ifs with h1 h2 h3
  any_goals rfl
  exfalso
  rcases h with h | h | h | h
  · omega
  · omega
  · exact h3 (Or.inl h)
  · exact h3 (Or.inr h)

/-! ### C8 -/

/-- C8 counterexample: the internal design variant does not perform the
public validation with only the k threshold relaxed.  It never validates
dt (here dt = 5 is accepted) and it accepts beta = 0, which the public
entry points reject; in both cases it returns normally instead of
reporting an error. -/
theorem internal_accepts_beta_zero_and_wild_dt :
    design_rkaiser_filter_internal extZero 1 1 (1/2) 5 = Outcome.ok ([], 0.78583556) ∧
    design_rkaiser_filter_internal extZero 1 1 0 0 = Outcome.ok ([], 0.78583556) := by
  constructor <;>
  · rw [internal_ok extZero 1 1 _ _ (by norm_num) (by norm_num) (by norm_num) (by norm_num)]
    norm_num [normalizeEnergy, rkaiserCandidateTaps, extZero, clamp01, rhoHatRaw,
      rhoLogArg, rkaiserC2clamped, rkaiser_c012]

/-- C8 amended: the internal variant validates only k >= 1, m >= 1 and
beta in the closed interval [0,1]; inside that domain it runs the full
exact-design sequence (estimate, bounded parabolic search, regeneration
at the search result, energy normalization), and outside it the process
exits with code 1.  It performs no dt validation and accepts beta = 0
and beta = 1. -/
theorem internal_validation_behavior (E : Deps) (k m : ℕ) (beta dt : ℚ) :
    (1 ≤ k → 1 ≤ m → 0 ≤ beta → beta ≤ 1 →
      design_rkaiser_filter_internal E k m beta dt =
        Outcome.ok
          (normalizeEnergy E k
            (rkaiserCandidateTaps E k m beta dt
              (rkaiserSearchRho E k m beta dt (clamp01 (rhoHatRaw E m beta)))),
           clamp01 (rhoHatRaw E m beta))) ∧
    (k < 1 ∨ m < 1 ∨ beta < 0 ∨ 1 < beta →
      design_rkaiser_filter_internal E k m beta dt = Outcome.exit 1) :=
  ⟨fun hk hm hb0 hb1 => internal_ok E k m beta dt hk hm hb0 hb1,
   internal_invalid_exit E k m beta dt⟩

/-- C8 witness: the amended claim instantiated at a concrete accepted
input (k = 1, within the relaxed threshold) and at a concrete rejected
one (k = 0). -/
theorem internal_validation_behavior_witness :
    design_rkaiser_filter_internal extZero 1 1 (1/2) 0 =
      Outcome.ok
        (normalizeEnergy extZero 1
          (rkaiserCandidateTaps extZero 1 1 (1/2) 0
            (rkaiserSearchRho extZero 1 1 (1/2) 0 (clamp01 (rhoHatRaw extZero 1 (1/2))))),
         clamp01 (rhoHatRaw extZero 1 (1/2))) ∧
    design_rkaiser_filter_internal extZero 0 1 (1/2) 0 = Outcome.exit 1 :=
  ⟨(internal_validation_behavior extZero 1 1 (1/2) 0).1
     (by norm_num) (by norm_num) (by norm_num) (by norm_num),
   (internal_validation_behavior extZero 0 1 (1/2) 0).2 (Or.inl (by norm_num))⟩

/-! ### C10 -/

/-- C10: on every input the public exact design accepts (k >= 2, m >= 1,
beta in (0,1), dt in [-1,1]), design_rkaiser_filter returns exactly the
tap vector produced by design_rkaiser_filter_internal on the same input,
discarding only the rho component of the internal result. -/
theorem public_exact_refines_internal (E : Deps) (k m : ℕ) (beta dt : ℚ)
    (hk : 2 ≤ k) (hm : 1 ≤ m) (hb0 : 0 < beta) (hb1 : beta < 1)
    (hd0 : -1 ≤ dt) (hd1 : dt ≤ 1) :
    design_rkaiser_filter E k m beta dt =
      Outcome.map Prod.fst (design_rkaiser_filter_internal E k m beta dt) ∧
    design_rkaiser_filter_internal E k m beta dt =
      Outcome.ok
        (normalizeEnergy E k
          (rkaiserCandidateTaps E k m beta dt
            (rkaiserSearchRho E k m beta dt (clamp01 (rhoHatRaw E m beta)))),
         clamp01 (rhoHatRaw E m beta)) := by
  refine ⟨?_, internal_ok E k m beta dt (by omega) hm (le_of_lt hb0) (le_of_lt hb1)⟩
  unfold design_rkaiser_filter
  rw [if_neg (by omega), if_neg (by omega), if_neg (by push_neg; exact ⟨hb0, hb1⟩),
    if_neg (by push_neg; exact ⟨hd0, hd1⟩)]

/-- C10 witness: the refinement instantiated at k = 2, m = 1,
beta = 1/2, dt = 0. -/
theorem public_exact_refines_internal_witness :
    design_rkaiser_filter extZero 2 1 (1/2) 0 =
      Outcome.map Prod.fst (design_rkaiser_filter_internal extZero 2 1 (1/2) 0) ∧
    design_rkaiser_filter_internal extZero 2 1 (1/2) 0 =
      Outcome.ok
        (normalizeEnergy extZero 2
          (rkaiserCandidateTaps extZero 2 1 (1/2) 0
            (rkaiserSearchRho extZero 2 1 (1/2) 0 (clamp01 (rhoHatRaw extZero 1 (1/2))))),
         clamp01 (rhoHatRaw extZero 1 (1/2))) :=
  public_exact_refines_internal extZero 2 1 (1/2) 0
    (by norm_num) (by norm_num) (by norm_num) (by norm_num) (by norm_num) (by norm_num)

/-! ### C3 -/

/-- C3 amended (the true half): the estimate rho_hat produced by the
approximator is always clamped to [0,1]. -/
theorem rho_hat_clamped_to_unit_interval (E : Deps) (m : ℕ) (beta : ℚ)
    (hm : 1 ≤ m) (hb0 : 0 ≤ beta) (hb1 : beta ≤ 1) :
    rkaiser_approximate_rho E m beta = Outcome.ok (clamp01 (rhoHatRaw E m beta)) ∧
    0 ≤ clamp01 (rhoHatRaw E m beta) ∧ clamp01 (rhoHatRaw E m beta) ≤ 1 :=
  ⟨approx_rho_ok E m beta hm hb0 hb1, clamp01_nonneg _, clamp01_le_one _⟩

/-- C3 witness: the amended claim instantiated at m = 2, beta = 1. -/
theorem rho_hat_clamped_to_unit_interval_witness :
    rkaiser_approximate_rho extZero 2 1 = Outcome.ok (clamp01 (rhoHatRaw extZero 2 1)) ∧
    0 ≤ clamp01 (rhoHatRaw extZero 2 1) ∧ clamp01 (rhoHatRaw extZero 2 1) ≤ 1 :=
  rho_hat_clamped_to_unit_interval extZero 2 1 (by norm_num) (by norm_num) (by norm_num)

/-! ### C4 -/

/-- C4: for every input the public entry points accept, both the
approximate and the exact (internal) design return the energy-normalized
tap vector of length n = 2km+1 whose squared taps sum to k -- granted
that the external tap generator returns a vector of the requested length
and that the external sqrtf is exact at the normalization point k/e2
(the two hypotheses on the collaborators, which in particular force the
raw energy e2 to be nonzero). -/
theorem designed_taps_energy_equals_k (E : Deps) (k m : ℕ) (beta dt : ℚ)
    (hk : 2 ≤ k) (hm : 1 ≤ m) (hb0 : 0 < beta) (hb1 : beta < 1)
    (hd0 : -1 ≤ dt) (hd1 : dt ≤ 1)
    (hsA : E.sqrtf ((k : ℚ) / sumSq (arkRawTaps E k m beta dt)) ^ 2 *
      sumSq (arkRawTaps E k m beta dt) = (k : ℚ))
    (hsI : E.sqrtf ((k : ℚ) / sumSq (rkaiserFinalRawTaps E k m beta dt)) ^ 2 *
      sumSq (rkaiserFinalRawTaps E k m beta dt) = (k : ℚ))
    (hlA : (arkRawTaps E k m beta dt).length = 2 * k * m + 1)
    (hlI : (rkaiserFinalRawTaps E k m beta dt).length = 2 * k * m + 1) :
    design_arkaiser_filter E k m beta dt =
      Outcome.ok (normalizeEnergy E k (arkRawTaps E k m beta dt)) ∧
    sumSq (normalizeEnergy E k (arkRawTaps E k m beta dt)) = (k : ℚ) ∧
    (normalizeEnergy E k (arkRawTaps E k m beta dt)).length = 2 * k * m + 1 ∧
    design_rkaiser_filter_internal E k m beta dt =
      Outcome.ok (normalizeEnergy E k (rkaiserFinalRawTaps E k m beta dt),
        clamp01 (rhoHatRaw E m beta)) ∧
    sumSq (normalizeEnergy E k (rkaiserFinalRawTaps E k m beta dt)) = (k : ℚ) ∧
    (normalizeEnergy E k (rkaiserFinalRawTaps E k m beta dt)).length = 2 * k * m + 1 := by
  refine ⟨?_, ?_, ?_, ?_, ?_, ?_⟩
  · unfold design_arkaiser_filter
    rw [if_neg (by omega), if_neg (by omega), if_neg (by push_neg; exact ⟨hb0, hb1⟩),
      if_neg (by push_neg; exact ⟨hd0, hd1⟩),
      approx_rho_ok E m beta hm (le_of_lt hb0) (le_of_lt hb1)]
    rfl
  · rw [sumSq_normalizeEnergy]
    exact hsA
  · unfold normalizeEnergy
    rw [List.length_map]
    exact hlA
  · exact internal_ok E k m beta dt (by omega) hm (le_of_lt hb0) (le_of_lt hb1)
  · rw [sumSq_normalizeEnergy]
    exact hsI
  · unfold normalizeEnergy
    rw [List.length_map]
    exact hlI

/-- C4 witness: both energy conclusions at k = 2, m = 1, beta = 1/2,
dt = 0 with collaborators for which the raw taps are [1,1,0,0,0]
(energy 2) and sqrtf is exact at 2/2 = 1. -/
theorem designed_taps_energy_equals_k_witness :
    design_arkaiser_filter extW 2 1 (1/2) 0 =
      Outcome.ok (normalizeEnergy extW 2 (arkRawTaps extW 2 1 (1/2) 0)) ∧
    sumSq (normalizeEnergy extW 2 (arkRawTaps extW 2 1 (1/2) 0)) = ((2 : ℕ) : ℚ) ∧
    (normalizeEnergy extW 2 (arkRawTaps extW 2 1 (1/2) 0)).length = 2 * 2 * 1 + 1 ∧
    design_rkaiser_filter_internal extW 2 1 (1/2) 0 =
      Outcome.ok (normalizeEnergy extW 2 (rkaiserFinalRawTaps extW 2 1 (1/2) 0),
        clamp01 (rhoHatRaw extW 1 (1/2))) ∧
    sumSq (normalizeEnergy extW 2 (rkaiserFinalRawTaps extW 2 1 (1/2) 0)) = ((2 : ℕ) : ℚ) ∧
    (normalizeEnergy extW 2 (rkaiserFinalRawTaps extW 2 1 (1/2) 0)).length = 2 * 2 * 1 + 1 :=
  designed_taps_energy_equals_k extW 2 1 (1/2) 0
    (by norm_num) (by norm_num) (by norm_num) (by norm_num) (by norm_num) (by norm_num)
    (by norm_num [arkRawTaps, rkaiserCandidateTaps, extW, sumSq])
    (by norm_num [rkaiserFinalRawTaps, rkaiserCandidateTaps, extW, sumSq])
    (by norm_num [arkRawTaps, rkaiserCandidateTaps, extW])
    (by norm_num [rkaiserFinalRawTaps, rkaiserCandidateTaps, extW])

/-! ### C6 -/

/-- C6: the optimizer initializes the bracket at x0 = 0.9*rho_hat and
x2 = 1.1*rho_hat, and each loop iteration takes the midpoint
x1 = (x0+x2)/2 with its objective value y1, computes the vertex by the
inverse-parabolic formula of the specification, and narrows the bracket
by position: when the vertex exceeds x1 the lower endpoint (x0,y0) is
replaced by (x1,y1), otherwise the upper endpoint (x2,y2) is; the only
other behavior is the early break on a near-zero denominator. -/
theorem parabolic_search_follows_spec (E : Deps) (k m : ℕ) (beta dt rho_hat : ℚ)
    (s : SearchState) :
    (rkaiserInitState E k m beta dt rho_hat).x0 = 0.9 * rho_hat ∧
    (rkaiserInitState E k m beta dt rho_hat).x2 = 1.1 * rho_hat ∧
    searchStep E k m beta dt s =
      (if |searchDenom E k m beta dt s| < 1e-9 then (s, true)
       else if specVertex s.x0 s.y0 ((s.x0 + s.x2) / 2)
              (design_rkaiser_filter_internal_isi E k m beta dt ((s.x0 + s.x2) / 2))
              s.x2 s.y2 > (s.x0 + s.x2) / 2 then
         (⟨(s.x0 + s.x2) / 2,
           design_rkaiser_filter_internal_isi E k m beta dt ((s.x0 + s.x2) / 2),
           s.x2, s.y2,
           specVertex s.x0 s.y0 ((s.x0 + s.x2) / 2)
             (design_rkaiser_filter_internal_isi E k m beta dt ((s.x0 + s.x2) / 2))
             s.x2 s.y2⟩, false)
       else
         (⟨s.x0, s.y0, (s.x0 + s.x2) / 2,
           design_rkaiser_filter_internal_isi E k m beta dt ((s.x0 + s.x2) / 2),
           specVertex s.x0 s.y0 ((s.x0 + s.x2) / 2)
             (design_rkaiser_filter_internal_isi E k m beta dt ((s.x0 + s.x2) / 2))
             s.x2 s.y2⟩, false)) := by
  refine ⟨by unfold rkaiserInitState; ring, by unfold rkaiserInitState; ring, ?_⟩
  have hx1 : (s.x0 + s.x2) / 2 = searchX1 s := by
    unfold searchX1; ring
  rw [hx1]
  rw [show design_rkaiser_filter_internal_isi E k m beta dt (searchX1 s) =
      searchY1 E k m beta dt s from rfl]
  have hv : specVertex s.x0 s.y0 (searchX1 s) (searchY1 E k m beta dt s) s.x2 s.y2 =
      0.5 * searchNum E k m beta dt s / searchDenom E k m beta dt s := by
    unfold specVertex searchNum searchDenom
    ring
  rw [hv]
  rfl

theorem extCx_rho_hat : clamp01 (rhoHatRaw extCx 1 (1/2)) = 1 := by
  norm_num [clamp01, rhoHatRaw, rhoLogArg, rkaiserC2clamped, rkaiser_c012, extCx]

theorem extCx_init :
    rkaiserInitState extCx 2 1 (1/2) 0 1 =
      ⟨0.9, 0.0000275625, 1.1, 0.0000225625, 1⟩ := by
  norm_num [rkaiserInitState, design_rkaiser_filter_internal_isi, rkaiserCandidateTaps,
    extCx, SearchState.mk.injEq]

theorem extCx_step1 :
    searchStep extCx 2 1 (1/2) 0 ⟨0.9, 0.0000275625, 1.1, 0.0000225625, 1⟩ =
      (⟨1, 0.000025, 1.1, 0.0000225625, 3⟩, false) := by
  have hd : searchDenom extCx 2 1 (1/2) 0 ⟨0.9, 0.0000275625, 1.1, 0.0000225625, 1⟩ =
      -0.0000000125 := by
    norm_num [searchDenom, searchX1, searchY1, design_rkaiser_filter_internal_isi,
      rkaiserCandidateTaps, extCx]
  have hn : searchNum extCx 2 1 (1/2) 0 ⟨0.9, 0.0000275625, 1.1, 0.0000225625, 1⟩ =
      -0.000000075 := by
    norm_num [searchNum, searchX1, searchY1, design_rkaiser_filter_internal_isi,
      rkaiserCandidateTaps, extCx]
  have habs : ¬ (|(-0.0000000125 : ℚ)| < 1e-9) := by
    rw [abs_of_nonpos (by norm_num)]
    norm_num
  unfold searchStep
  rw [hd, hn, if_neg habs]
  norm_num [searchX1, searchY1, design_rkaiser_filter_internal_isi,
    rkaiserCandidateTaps, extCx, SearchState.mk.injEq]

theorem extCx_step2 :
    searchStep extCx 2 1 (1/2) 0 ⟨1, 0.000025, 1.1, 0.0000225625, 3⟩ =
      (⟨1.05, 0.000023765625, 1.1, 0.0000225625, 3⟩, false) := by
  have hd : searchDenom extCx 2 1 (1/2) 0 ⟨1, 0.000025, 1.1, 0.0000225625, 3⟩ =
      -0.0000000015625 := by
    norm_num [searchDenom, searchX1, searchY1, design_rkaiser_filter_internal_isi,
      rkaiserCandidateTaps, extCx]
  have hn : searchNum extCx 2 1 (1/2) 0 ⟨1, 0.000025, 1.1, 0.0000225625, 3⟩ =
      -0.000000009375 := by
    norm_num [searchNum, searchX1, searchY1, design_rkaiser_filter_internal_isi,
      rkaiserCandidateTaps, extCx]
  have habs : ¬ (|(-0.0000000015625 : ℚ)| < 1e-9) := by
    rw [abs_of_nonpos (by norm_num)]
    norm_num
  unfold searchStep
  rw [hd, hn, if_neg habs]
  norm_num [searchX1, searchY1, design_rkaiser_filter_internal_isi,
    rkaiserCandidateTaps, extCx, SearchState.mk.injEq]

theorem extCx_step3 :
    searchStep extCx 2 1 (1/2) 0 ⟨1.05, 0.000023765625, 1.1, 0.0000225625, 3⟩ =
      (⟨1.05, 0.000023765625, 1.1, 0.0000225625, 3⟩, true) := by
  apply searchStep_of_small_denom
  have hd : searchDenom extCx 2 1 (1/2) 0 ⟨1.05, 0.000023765625, 1.1, 0.0000225625, 3⟩ =
      -0.0000000001953125 := by
    norm_num [searchDenom, searchX1, searchY1, design_rkaiser_filter_internal_isi,
      rkaiserCandidateTaps, extCx]
  rw [hd, abs_of_nonpos (by norm_num)]
  norm_num

theorem extCx_run :
    searchRun extCx 2 1 (1/2) 0 (rkaiserInitState extCx 2 1 (1/2) 0 1) 10 =
      (⟨1.05, 0.000023765625, 1.1, 0.0000225625, 3⟩, 3) := by
  have e1 : searchRun extCx 2 1 (1/2) 0 (rkaiserInitState extCx 2 1 (1/2) 0 1) 10 =
      ((searchRun extCx 2 1 (1/2) 0 ⟨1, 0.000025, 1.1, 0.0000225625, 3⟩ 9).1,
       (searchRun extCx 2 1 (1/2) 0 ⟨1, 0.000025, 1.1, 0.0000225625, 3⟩ 9).2 + 1) := by
    rw [extCx_init]
    exact searchRun_go extCx 2 1 (1/2) 0 _ _ 9 extCx_step1
  have e2 : searchRun extCx 2 1 (1/2) 0 ⟨1, 0.000025, 1.1, 0.0000225625, 3⟩ 9 =
      ((searchRun extCx 2 1 (1/2) 0 ⟨1.05, 0.000023765625, 1.1, 0.0000225625, 3⟩ 8).1,
       (searchRun extCx 2 1 (1/2) 0 ⟨1.05, 0.000023765625, 1.1, 0.0000225625, 3⟩ 8).2 + 1) :=
    searchRun_go extCx 2 1 (1/2) 0 _ _ 8 extCx_step2
  have e3 : searchRun extCx 2 1 (1/2) 0 ⟨1.05, 0.000023765625, 1.1, 0.0000225625, 3⟩ 8 =
      (⟨1.05, 0.000023765625, 1.1, 0.0000225625, 3⟩, 1) :=
    searchRun_break extCx 2 1 (1/2) 0 _ _ 7 extCx_step3
  rw [e1, e2, e3]

theorem extCx_search_rho : rkaiserSearchRho extCx 2 1 (1/2) 0 1 = 3 := by
  unfold rkaiserSearchRho
  rw [extCx_run]

/-! ### C1 -/

/-- C1 (evidence of the divergence): at k = 2, m = 1, beta = 1/2,
dt = 0, with collaborators under which the measured ISI is the exact
parabola 0.0001*((1.5-0.5*rho)/2)^2 with vertex rho = 3, the search ends
with x_hat = 3 and the final taps are regenerated at rho = 3 (the first
tap is fc = 0), yet the value saved through the rho output parameter is
the unrefined estimate rho_hat = 1, not the x_hat at which the returned
taps were produced. -/
theorem internal_design_saves_rho_hat_not_vertex :
    design_rkaiser_filter_internal extCx 2 1 (1/2) 0 = Outcome.ok ([0, 1], 1) ∧
    rkaiserFinalRho extCx 2 1 (1/2) 0 = Outcome.ok 3 ∧
    (1 : ℚ) ≠ 3 := by
  refine ⟨?_, ?_, by norm_num⟩
  · rw [internal_ok extCx 2 1 (1/2) 0 (by norm_num) (by norm_num) (by norm_num) (by norm_num),
      extCx_rho_hat, extCx_search_rho]
    norm_num [normalizeEnergy, rkaiserCandidateTaps, extCx, sumSq]
  · unfold rkaiserFinalRho
    rw [approx_rho_ok extCx 1 (1/2) (by norm_num) (by norm_num) (by norm_num),
      extCx_rho_hat]
    show Outcome.ok (rkaiserSearchRho extCx 2 1 (1/2) 0 1) = Outcome.ok 3
    rw [extCx_search_rho]

/-! ### C3 -/

/-- C3 counterexample: at the valid input k = 2, m = 1, beta = 1/2,
dt = 0 (accepted by every entry point) and collaborators whose measured
ISI is an exact parabola with vertex rho = 3, the rho at which the final
filter taps are regenerated is 3, which lies outside [0,1]: the search
iterate x_hat is never clamped. -/
theorem final_regeneration_rho_outside_unit :
    rkaiserFinalRho extCx 2 1 (1/2) 0 = Outcome.ok 3 ∧ ¬ ((3 : ℚ) ≤ 1) := by
  refine ⟨?_, by norm_num⟩
  unfold rkaiserFinalRho
  rw [approx_rho_ok extCx 1 (1/2) (by norm_num) (by norm_num) (by norm_num),
    extCx_rho_hat]
  show Outcome.ok (rkaiserSearchRho extCx 2 1 (1/2) 0 1) = Outcome.ok 3
  rw [extCx_search_rho]

theorem extCx9_rho_hat : clamp01 (rhoHatRaw extCx9 1 (1/2)) = 1 := by
  norm_num [clamp01, rhoHatRaw, rhoLogArg, rkaiserC2clamped, rkaiser_c012, extCx9]

theorem extCx9_init :
    rkaiserInitState extCx9 2 1 (1/2) 0 1 =
      ⟨0.9, 0.999999, 1.1, 0.999991, 1⟩ := by
  norm_num [rkaiserInitState, design_rkaiser_filter_internal_isi, rkaiserCandidateTaps,
    extCx9, SearchState.mk.injEq]

theorem extCx9_step1 :
    searchStep extCx9 2 1 (1/2) 0 ⟨0.9, 0.999999, 1.1, 0.999991, 1⟩ =
      (⟨0.9, 0.999999, 1, 0.999996, 0.8⟩, false) := by
  have hd : searchDenom extCx9 2 1 (1/2) 0 ⟨0.9, 0.999999, 1.1, 0.999991, 1⟩ =
      0.0000002 := by
    norm_num [searchDenom, searchX1, searchY1, design_rkaiser_filter_internal_isi,
      rkaiserCandidateTaps, extCx9]
  have hn : searchNum extCx9 2 1 (1/2) 0 ⟨0.9, 0.999999, 1.1, 0.999991, 1⟩ =
      0.00000032 := by
    norm_num [searchNum, searchX1, searchY1, design_rkaiser_filter_internal_isi,
      rkaiserCandidateTaps, extCx9]
  have habs : ¬ (|(0.0000002 : ℚ)| < 1e-9) := by
    rw [abs_of_nonneg (by norm_num)]
    norm_num
  unfold searchStep
  rw [hd, hn, if_neg habs]
  norm_num [searchX1, searchY1, design_rkaiser_filter_internal_isi,
    rkaiserCandidateTaps, extCx9, SearchState.mk.injEq]

theorem extCx9_step2 :
    searchStep extCx9 2 1 (1/2) 0 ⟨0.9, 0.999999, 1, 0.999996, 0.8⟩ =
      (⟨0.9, 0.999999, 0.95, 0.99999775, 0.8⟩, false) := by
  have hd : searchDenom extCx9 2 1 (1/2) 0 ⟨0.9, 0.999999, 1, 0.999996, 0.8⟩ =
      0.000000025 := by
    norm_num [searchDenom, searchX1, searchY1, design_rkaiser_filter_internal_isi,
      rkaiserCandidateTaps, extCx9]
  have hn : searchNum extCx9 2 1 (1/2) 0 ⟨0.9, 0.999999, 1, 0.999996, 0.8⟩ =
      0.00000004 := by
    norm_num [searchNum, searchX1, searchY1, design_rkaiser_filter_internal_isi,
      rkaiserCandidateTaps, extCx9]
  have habs : ¬ (|(0.000000025 : ℚ)| < 1e-9) := by
    rw [abs_of_nonneg (by norm_num)]
    norm_num
  unfold searchStep
  rw [hd, hn, if_neg habs]
  norm_num [searchX1, searchY1, design_rkaiser_filter_internal_isi,
    rkaiserCandidateTaps, extCx9, SearchState.mk.injEq]

theorem extCx9_step3 :
    searchStep extCx9 2 1 (1/2) 0 ⟨0.9, 0.999999, 0.95, 0.99999775, 0.8⟩ =
      (⟨0.9, 0.999999, 0.925, 0.9999984375, 0.8⟩, false) := by
  have hd : searchDenom extCx9 2 1 (1/2) 0 ⟨0.9, 0.999999, 0.95, 0.99999775, 0.8⟩ =
      0.000000003125 := by
    norm_num [searchDenom, searchX1, searchY1, design_rkaiser_filter_internal_isi,
      rkaiserCandidateTaps, extCx9]
  have hn : searchNum extCx9 2 1 (1/2) 0 ⟨0.9, 0.999999, 0.95, 0.99999775, 0.8⟩ =
      0.000000005 := by
    norm_num [searchNum, searchX1, searchY1, design_rkaiser_filter_internal_isi,
      rkaiserCandidateTaps, extCx9]
  have habs : ¬ (|(0.000000003125 : ℚ)| < 1e-9) := by
    rw [abs_of_nonneg (by norm_num)]
    norm_num
  unfold searchStep
  rw [hd, hn, if_neg habs]
  norm_num [searchX1, searchY1, design_rkaiser_filter_internal_isi,
    rkaiserCandidateTaps, extCx9, SearchState.mk.injEq]

theorem extCx9_step4 :
    searchStep extCx9 2 1 (1/2) 0 ⟨0.9, 0.999999, 0.925, 0.9999984375, 0.8⟩ =
      (⟨0.9, 0.999999, 0.925, 0.9999984375, 0.8⟩, true) := by
  apply searchStep_of_small_denom
  have hd : searchDenom extCx9 2 1 (1/2) 0 ⟨0.9, 0.999999, 0.925, 0.9999984375, 0.8⟩ =
      0.000000000390625 := by
    norm_num [searchDenom, searchX1, searchY1, design_rkaiser_filter_internal_isi,
      rkaiserCandidateTaps, extCx9]
  rw [hd, abs_of_nonneg (by norm_num)]
  norm_num

theorem extCx9_run :
    searchRun extCx9 2 1 (1/2) 0 (rkaiserInitState extCx9 2 1 (1/2) 0 1) 10 =
      (⟨0.9, 0.999999, 0.925, 0.9999984375, 0.8⟩, 4) := by
  have e1 : searchRun extCx9 2 1 (1/2) 0 (rkaiserInitState extCx9 2 1 (1/2) 0 1) 10 =
      ((searchRun extCx9 2 1 (1/2) 0 ⟨0.9, 0.999999, 1, 0.999996, 0.8⟩ 9).1,
       (searchRun extCx9 2 1 (1/2) 0 ⟨0.9, 0.999999, 1, 0.999996, 0.8⟩ 9).2 + 1) := by
    rw [extCx9_init]
    exact searchRun_go extCx9 2 1 (1/2) 0 _ _ 9 extCx9_step1
  have e2 : searchRun extCx9 2 1 (1/2) 0 ⟨0.9, 0.999999, 1, 0.999996, 0.8⟩ 9 =
      ((searchRun extCx9 2 1 (1/2) 0 ⟨0.9, 0.999999, 0.95, 0.99999775, 0.8⟩ 8).1,
       (searchRun extCx9 2 1 (1/2) 0 ⟨0.9, 0.999999, 0.95, 0.99999775, 0.8⟩ 8).2 + 1) :=
    searchRun_go extCx9 2 1 (1/2) 0 _ _ 8 extCx9_step2
  have e3 : searchRun extCx9 2 1 (1/2) 0 ⟨0.9, 0.999999, 0.95, 0.99999775, 0.8⟩ 8 =
      ((searchRun extCx9 2 1 (1/2) 0 ⟨0.9, 0.999999, 0.925, 0.9999984375, 0.8⟩ 7).1,
       (searchRun extCx9 2 1 (1/2) 0 ⟨0.9, 0.999999, 0.925, 0.9999984375, 0.8⟩ 7).2 + 1) :=
    searchRun_go extCx9 2 1 (1/2) 0 _ _ 7 extCx9_step3
  have e4 : searchRun extCx9 2 1 (1/2) 0 ⟨0.9, 0.999999, 0.925, 0.9999984375, 0.8⟩ 7 =
      (⟨0.9, 0.999999, 0.925, 0.9999984375, 0.8⟩, 1) :=
    searchRun_break extCx9 2 1 (1/2) 0 _ _ 6 extCx9_step4
  rw [e1, e2, e3, e4]

theorem extCx9_search_rho : rkaiserSearchRho extCx9 2 1 (1/2) 0 1 = 0.8 := by
  unfold rkaiserSearchRho
  rw [extCx9_run]

/-! ### C9 -/

/-- C9 counterexample (against the spec-modelled collaborators): at the
valid input k = 2, m = 1, beta = 1/2, dt = 0, with a deterministic ISI
measurement given by the concave parabola 1 - 0.0001*(rho - 0.8)^2 (in
the recovered rho of the measured taps), the exact design returns taps
[0.55, 1] whose measured ISI is 1, while the approximate design returns
taps [0.5, 1] whose measured ISI is 0.999996: the refined design is
strictly worse than the unrefined estimate. -/
theorem exact_design_isi_can_exceed_approx :
    design_rkaiser_filter_internal extCx9 2 1 (1/2) 0 = Outcome.ok ([0.55, 1], 1) ∧
    design_arkaiser_filter extCx9 2 1 (1/2) 0 = Outcome.ok [0.5, 1] ∧
    (extCx9.liquid_filter_isi [0.55, 1] 2 1).1 > (extCx9.liquid_filter_isi [0.5, 1] 2 1).1 := by
  refine ⟨?_, ?_, by norm_num [extCx9]⟩
  · rw [internal_ok extCx9 2 1 (1/2) 0 (by norm_num) (by norm_num) (by norm_num) (by norm_num),
      extCx9_rho_hat, extCx9_search_rho]
    norm_num [normalizeEnergy, rkaiserCandidateTaps, extCx9, sumSq]
  · unfold design_arkaiser_filter
    rw [if_neg (by omega), if_neg (by omega), if_neg (by push_neg; norm_num),
      if_neg (by push_neg; norm_num),
      approx_rho_ok extCx9 1 (1/2) (by norm_num) (by norm_num) (by norm_num),
      extCx9_rho_hat]
    show Outcome.ok (normalizeEnergy extCx9 2 (rkaiserCandidateTaps extCx9 2 1 (1/2) 0 1)) =
      Outcome.ok [0.5, 1]
    norm_num [normalizeEnergy, rkaiserCandidateTaps, extCx9, sumSq]

/-- C9 amended: the search provides no guarantee relating the measured
ISI of the exact and approximate designs; what does hold is that when
the very first parabola fit is degenerate (denominator below 1e-9), the
exact design's final rho is exactly rho_hat, so the exact and
approximate designs return identical taps and hence identical ISI. -/
theorem degenerate_first_fit_designs_coincide (E : Deps) (k m : ℕ) (beta dt : ℚ)
    (hk : 2 ≤ k) (hm : 1 ≤ m) (hb0 : 0 < beta) (hb1 : beta < 1)
    (hd0 : -1 ≤ dt) (hd1 : dt ≤ 1)
    (hbrk : |searchDenom E k m beta dt
        (rkaiserInitState E k m beta dt (clamp01 (rhoHatRaw E m beta)))| < 1e-9) :
    design_arkaiser_filter E k m beta dt =
      Outcome.map Prod.fst (design_rkaiser_filter_internal E k m beta dt) := by
  have hrun := searchRun_break E k m beta dt _ _ 9 (searchStep_of_small_denom _ _ _ _ _ _ hbrk)
  have hrho : rkaiserSearchRho E k m beta dt (clamp01 (rhoHatRaw E m beta)) =
      clamp01 (rhoHatRaw E m beta) := by
    unfold rkaiserSearchRho
    rw [hrun]
    rfl
  rw [internal_ok E k m beta dt (by omega) hm (le_of_lt hb0) (le_of_lt hb1), hrho]
  unfold design_arkaiser_filter
  rw [if_neg (by omega), if_neg (by omega), if_neg (by push_neg; exact ⟨hb0, hb1⟩),
    if_neg (by push_neg; exact ⟨hd0, hd1⟩),
    approx_rho_ok E m beta hm (le_of_lt hb0) (le_of_lt hb1)]
  rfl

theorem extZero_denom_zero (k m : ℕ) (beta dt rho_hat : ℚ) :
    searchDenom extZero k m beta dt (rkaiserInitState extZero k m beta dt rho_hat) = 0 := by
  simp [searchDenom, searchY1, rkaiserInitState, design_rkaiser_filter_internal_isi, extZero]

/-- C9 witness: the amended claim instantiated at k = 2, m = 1,
beta = 1/2, dt = 0 with the identically-zero ISI measurement, whose
first parabola fit is degenerate. -/
theorem degenerate_first_fit_designs_coincide_witness :
    design_arkaiser_filter extZero 2 1 (1/2) 0 =
      Outcome.map Prod.fst (design_rkaiser_filter_internal extZero 2 1 (1/2) 0) :=
  degenerate_first_fit_designs_coincide extZero 2 1 (1/2) 0
    (by norm_num) (by norm_num) (by norm_num) (by norm_num) (by norm_num) (by norm_num)
    (by rw [extZero_denom_zero]; norm_num)
